import Mathlib

/-!
Shallow embedding of the bmp-reader crate (src/lib.rs, src/bitreader.rs,
src/bmp_header.rs, src/bmp_pixels.rs) and verification of its specification.

Modelling conventions:
* The seekable byte source (a Rust Cursor over bytes) is a `Stream`: a byte
  list plus a cursor position.  A plain `Read::read` call copies as many bytes
  as are available and leaves the rest of the caller buffer zero-filled
  (`readRaw`); the byteorder `read_uN` helpers use read_exact semantics and
  fail with an I/O error on a short read (`readLEx`).
* Machine integers are `Nat` with explicit truncation (`% 2 ^ 32`, `% 2 ^ 16`,
  `% 256`) at the points where the Rust code truncates, and `Int` for the
  signed i32 fields (`toI32` reinterprets a 32-bit value in two-complement).
* Rust panics (slice index out of bounds, shift amount at least the bit
  width, remainder by zero, the explicit panic in `from_v3_buffer`) are
  modelled as `none` / dedicated error values, kept distinct from the
  `io::Error` values that the Rust code returns as `Result` payloads.
* `n_bits_remaining -= n_bits_per_chunk` is modelled with truncated
  subtraction; on every state reachable from `BitReader::new` the chunk width
  divides the remaining count, so the subtraction never underflows there.
-/

namespace BMP

/-- A seekable in-memory byte source: the Rust Cursor over a byte vector. -/
structure Stream where
  data : List Nat
  pos : Nat
deriving DecidableEq

/-- Plain `Read::read` into a zero-initialised buffer of length `n`: copies
the bytes that are available, leaves the tail of the buffer zero, and
advances the position by the number of bytes actually copied. -/
def readRaw (s : Stream) (n : Nat) : List Nat × Stream :=
  ((List.range n).map (fun i => s.data.getD (s.pos + i) 0),
   { s with pos := s.pos + min n (s.data.length - s.pos) })

/-- Little-endian value of the `n` bytes at the current position. -/
def leRead (s : Stream) (n : Nat) : Nat :=
  (List.range n).foldr (fun i acc => s.data.getD (s.pos + i) 0 + 256 * acc) 0

/-- `SeekFrom::Current(n)` with a non-negative displacement (the only kind the
source code performs): never fails on a Cursor. -/
def seekCur (s : Stream) (n : Nat) : Stream :=
  { s with pos := s.pos + n }

/-- Reinterpret a 32-bit unsigned value as a signed i32 (two-complement). -/
def toI32 (v : Nat) : Int :=
  if v < 2 ^ 31 then (v : Int) else (v : Int) - 2 ^ 32

/-- Outcome of a pixel-level read in `next_pixel`: either a Rust panic or an
`io::Error` returned as a value. -/
inductive RunErr where
  | panicked
  | ioErr
deriving DecidableEq

/-- byteorder `read_uN` (read_exact semantics): fails with an I/O error when
fewer than `n` bytes remain. -/
def readLEx (s : Stream) (n : Nat) : Except RunErr (Nat × Stream) :=
  if s.pos + n ≤ s.data.length then
    Except.ok (leRead s n, { s with pos := s.pos + n })
  else
    Except.error RunErr.ioErr

/-- `u32::trailing_zeros`: index of the lowest set bit among the low 32 bits,
and 32 when none is set (in particular for the input 0). -/
def trailingZeros (n : Nat) : Nat :=
  ((List.range 32).find? (fun i => decide ((n >>> i) % 2 = 1))).getD 32

/-! ### src/bmp_pixels.rs: upscale and mask -/

/-- `fn upscale(from: u32, bits: u8) -> u32` from src/bmp_pixels.rs.
The loop `for _ in 1..(32/bits)` repeats the low `bits` bits of `from`
upward; the tail step handles a remainder when `bits` does not divide 32.
`none` models a Rust panic: division by zero when `bits = 0`, and an
overflowing shift amount (at least 32) in `to << 32 % bits`, which happens
exactly when `bits` exceeds 32 so that `32 % bits = 32`. -/
def upscale (fr bits : Nat) : Option Nat :=
  if bits = 0 then none
  else
    let t := (List.range (32 / bits - 1)).foldl
      (fun t _ => ((t <<< bits) ||| fr) % 2 ^ 32) fr
    if 32 % bits = 0 then some t
    else if 32 ≤ 32 % bits then none
    else some (((t <<< (32 % bits)) ||| (fr >>> (32 - 32 % bits))) % 2 ^ 32)

/-- `fn mask(px: u32, mask: u32) -> u32` from src/bmp_pixels.rs.
The source computes the replication width as
`!(mask >> mask.trailing_zeros()).trailing_zeros() as u8`; by Rust operator
precedence the `!` applies to the trailing-zero COUNT of the shifted mask,
not to the shifted mask itself, so the width argument is
`(!tz) as u8 = (2^32 - 1 - tz) % 256`.  The guard models the shift-amount
panic of `mask >> mask.trailing_zeros()` when the count reaches 32 (mask 0). -/
def mask (px m : Nat) : Option Nat :=
  if 32 ≤ trailingZeros m then none
  else
    upscale ((px &&& m) >>> trailingZeros m)
      ((2 ^ 32 - 1 - trailingZeros (m >>> trailingZeros m)) % 256)

/-- `fn mask_or_zeros` from src/bmp_pixels.rs. -/
def mask_or_zeros (px msk : Nat) : Option Nat :=
  if msk = 0 then some 0 else mask px msk

/-- `fn mask_or_ones` from src/bmp_pixels.rs. -/
def mask_or_ones (px msk : Nat) : Option Nat :=
  if msk = 0 then some (2 ^ 32 - 1) else mask px msk

/-! ### src/bitreader.rs -/

/-- `struct BitReader` without its borrowed source (the `Stream` is threaded
separately through the operations). -/
structure BitReader where
  byte : Nat
  n_bits_remaining : Nat
  n_bits_per_chunk : Nat
deriving DecidableEq

/-- `BitReader::new`.  The source asserts `n_bits_per_chunk ∈ {1,2,4,8}`;
every call site in the crate passes one of these values. -/
def BitReader.new (n_bits_per_chunk : Nat) : BitReader :=
  ⟨0, 0, n_bits_per_chunk⟩

/-- `BitReader::read_bits`: for chunk width 8 a raw byte read; otherwise
refill the one-byte buffer when empty, extract the low chunk, and shift the
buffer down.  A short read leaves the buffer byte zero (plain `read`). -/
def BitReader.read_bits (br : BitReader) (s : Stream) : Nat × BitReader × Stream :=
  if br.n_bits_per_chunk = 8 then
    let r := readRaw s 1
    (r.1.getD 0 0, br, r.2)
  else
    let byte := if br.n_bits_remaining = 0 then (readRaw s 1).1.getD 0 0 else br.byte
    let rem := if br.n_bits_remaining = 0 then 8 else br.n_bits_remaining
    let s1 := if br.n_bits_remaining = 0 then (readRaw s 1).2 else s
    (byte &&& (255 >>> (8 - br.n_bits_per_chunk)),
     { br with byte := byte >>> br.n_bits_per_chunk,
               n_bits_remaining := rem - br.n_bits_per_chunk },
     s1)

/-- `BitReader::seek_to_byte_boundary`: realign the source to the next
multiple of `align` and discard any buffered partial byte.  `none` models the
Rust remainder-by-zero panic in `position % align` when `align = 0`. -/
def BitReader.seek_to_byte_boundary (br : BitReader) (s : Stream) (align : Nat) :
    Option (BitReader × Stream) :=
  if align = 0 then none
  else
    some ({ br with byte := 0, n_bits_remaining := 0 },
          if s.pos % align ≠ 0 then
            { s with pos := s.pos + (align - s.pos % align) }
          else s)

/-! ### src/bmp_header.rs -/

def BMP_BITFIELD32_RED : Nat := 0x00ff0000
def BMP_BITFIELD32_GREEN : Nat := 0x0000ff00
def BMP_BITFIELD32_BLUE : Nat := 0x000000ff
def BMP_BITFIELD16_RED : Nat := 0b0111110000000000
def BMP_BITFIELD16_GREEN : Nat := 0b0000001111100000
def BMP_BITFIELD16_BLUE : Nat := 0b0000000000011111

/-- `enum BMPError`.  `IOError` stands for `BMPError::IOError(_)`;
`Unreachable` models the explicit Rust panic in `from_v3_buffer` on the V2
version tag (not a value of the source enum; never produced from
`from_buffer`). -/
inductive BMPError where
  | WrongMagicNumbers (a b : Nat)
  | UnsupportedHeaderSize (v : Nat)
  | UnsupportedNumberOfPlanes (p : Nat)
  | UnsupportedCompressionType (v : Nat)
  | UnsupportedBitsPerPixel (b : Nat)
  | BitfieldsNotSupportedForPixelDepth (b : Nat)
  | BitfieldsNotContiguous (r g b a : Nat)
  | BitfieldsOverlap (r g b a : Nat)
  | InvalidWidth (w : Int)
  | InvalidHeight (h : Int)
  | HeaderTooLarge (cur off : Nat)
  | IOError
  | Unreachable
deriving DecidableEq

inductive CompressionType where
  | RGB
  | Bitfields
  | AlphaBitfields
deriving DecidableEq

/-- `CompressionType::from_u32`. -/
def CompressionType.from_u32 (val : Nat) : Except BMPError CompressionType :=
  if val = 0 then Except.ok CompressionType.RGB
  else if val = 3 then Except.ok CompressionType.Bitfields
  else if val = 6 then Except.ok CompressionType.AlphaBitfields
  else Except.error (BMPError.UnsupportedCompressionType val)

inductive BMPVersion where
  | Two
  | Three
  | Four
  | Five
deriving DecidableEq

/-- `BMPVersion::from_dib_header_size`. -/
def BMPVersion.from_dib_header_size (val : Nat) : Except BMPError BMPVersion :=
  if val = 12 then Except.ok BMPVersion.Two
  else if val = 40 then Except.ok BMPVersion.Three
  else if val = 108 then Except.ok BMPVersion.Four
  else if val = 124 then Except.ok BMPVersion.Five
  else Except.error (BMPError.UnsupportedHeaderSize val)

structure BMPHeader where
  version : BMPVersion
  width : Nat
  height : Int
  bpp : Nat
  n_colors : Nat
  red_mask : Nat
  green_mask : Nat
  blue_mask : Nat
  alpha_mask : Nat
  pixel_offset : Nat
deriving DecidableEq

/-- `fn mask_is_contiguous(mask: u32) -> bool` from src/bmp_header.rs,
transcribed as written: after the zero test, the mask is shifted past its
trailing zeros; the source then has `if mask == 0 { true; }`, a statement
with no effect; the second `mask >> mask.trailing_zeros()` shifts an odd
value by its trailing-zero count, which is 0; finally the function returns
true only if that value is 0. -/
def mask_is_contiguous (mask : Nat) : Bool :=
  if mask = 0 then true
  else
    let mask1 := mask >>> trailingZeros mask
    let mask2 := mask1 >>> trailingZeros mask1
    if mask2 = 0 then true else false

/-- `BMPHeader::new`: validates width, height and plane count, reconciles the
palette colour count (`1 << bpp` when the depth is below 16 and the declared
count is zero or too large, and 0 in every other case), and installs the
per-depth default component masks. -/
def BMPHeader.new (version : BMPVersion) (width height : Int)
    (planes bpp n_colors pixel_offset : Nat) : Except BMPError BMPHeader :=
  if width ≤ 0 then Except.error (BMPError.InvalidWidth width)
  else if height = 0 then Except.error (BMPError.InvalidHeight height)
  else if planes ≠ 1 then Except.error (BMPError.UnsupportedNumberOfPlanes planes)
  else Except.ok
    { version := version
      width := width.natAbs
      height := height
      bpp := bpp
      n_colors := if bpp < 16 ∧ (n_colors = 0 ∨ 2 ^ bpp < n_colors) then 2 ^ bpp else 0
      red_mask := if bpp = 16 then BMP_BITFIELD16_RED
                  else if bpp = 32 then BMP_BITFIELD32_RED else 0
      green_mask := if bpp = 16 then BMP_BITFIELD16_GREEN
                    else if bpp = 32 then BMP_BITFIELD32_GREEN else 0
      blue_mask := if bpp = 16 then BMP_BITFIELD16_BLUE
                   else if bpp = 32 then BMP_BITFIELD32_BLUE else 0
      alpha_mask := 0
      pixel_offset := pixel_offset }

/-- `BMPHeader::set_masks`: only depths 16 and 32 accept explicit bitfield
masks; all four masks must pass `mask_is_contiguous` and be pairwise
disjoint. -/
def BMPHeader.set_masks (h : BMPHeader)
    (red_mask green_mask blue_mask alpha_mask : Nat) : Except BMPError BMPHeader :=
  if ¬ (h.bpp = 16 ∨ h.bpp = 32) then
    Except.error (BMPError.BitfieldsNotSupportedForPixelDepth h.bpp)
  else if mask_is_contiguous red_mask = false ∨ mask_is_contiguous green_mask = false ∨
          mask_is_contiguous blue_mask = false ∨ mask_is_contiguous alpha_mask = false then
    Except.error (BMPError.BitfieldsNotContiguous red_mask green_mask blue_mask alpha_mask)
  else if red_mask &&& green_mask ≠ 0 ∨ red_mask &&& blue_mask ≠ 0 ∨
          red_mask &&& alpha_mask ≠ 0 ∨ green_mask &&& blue_mask ≠ 0 ∨
          green_mask &&& alpha_mask ≠ 0 ∨ blue_mask &&& alpha_mask ≠ 0 then
    Except.error (BMPError.BitfieldsOverlap red_mask green_mask blue_mask alpha_mask)
  else
    Except.ok { h with red_mask := red_mask, green_mask := green_mask,
                       blue_mask := blue_mask, alpha_mask := alpha_mask }

/-- `BMPHeader::from_v2_buffer`: 16-bit width, height, planes and bpp. -/
def BMPHeader.from_v2_buffer (s : Stream) (pixel_offset : Nat) :
    Except BMPError (BMPHeader × Stream) := do
  let (width, s) ← readLEx s 2 |>.mapError (fun _ => BMPError.IOError)
  let (height, s) ← readLEx s 2 |>.mapError (fun _ => BMPError.IOError)
  let (planes, s) ← readLEx s 2 |>.mapError (fun _ => BMPError.IOError)
  let (bpp, s) ← readLEx s 2 |>.mapError (fun _ => BMPError.IOError)
  let h ← BMPHeader.new BMPVersion.Two (Int.ofNat width) (Int.ofNat height)
    planes bpp 0 pixel_offset
  return (h, s)

/-- `BMPHeader::from_v3_buffer`: the V3/V4/V5 field layout, followed by the
version-and-compression specific tail (explicit masks or a skip). -/
def BMPHeader.from_v3_buffer (s : Stream) (version : BMPVersion) (pixel_offset : Nat) :
    Except BMPError (BMPHeader × Stream) := do
  let (w4, s) ← readLEx s 4 |>.mapError (fun _ => BMPError.IOError)
  let (h4, s) ← readLEx s 4 |>.mapError (fun _ => BMPError.IOError)
  let (planes, s) ← readLEx s 2 |>.mapError (fun _ => BMPError.IOError)
  let (bpp, s) ← readLEx s 2 |>.mapError (fun _ => BMPError.IOError)
  let (comp, s) ← readLEx s 4 |>.mapError (fun _ => BMPError.IOError)
  let compression ← CompressionType.from_u32 comp
  let s := seekCur s 12
  let (n_colors, s) ← readLEx s 4 |>.mapError (fun _ => BMPError.IOError)
  let s := seekCur s 4
  let h ← BMPHeader.new version (toI32 w4) (toI32 h4) planes bpp n_colors pixel_offset
  match version, compression with
  | BMPVersion.Two, _ => Except.error BMPError.Unreachable
  | BMPVersion.Three, CompressionType.RGB => return (h, s)
  | BMPVersion.Three, _ => do
      let (r, s) ← readLEx s 4 |>.mapError (fun _ => BMPError.IOError)
      let (g, s) ← readLEx s 4 |>.mapError (fun _ => BMPError.IOError)
      let (b, s) ← readLEx s 4 |>.mapError (fun _ => BMPError.IOError)
      let h ← h.set_masks r g b 0
      return (h, s)
  | BMPVersion.Four, CompressionType.RGB => return (h, seekCur s 72)
  | BMPVersion.Four, _ => do
      let (r, s) ← readLEx s 4 |>.mapError (fun _ => BMPError.IOError)
      let (g, s) ← readLEx s 4 |>.mapError (fun _ => BMPError.IOError)
      let (b, s) ← readLEx s 4 |>.mapError (fun _ => BMPError.IOError)
      let (a, s) ← readLEx s 4 |>.mapError (fun _ => BMPError.IOError)
      let h ← h.set_masks r g b a
      return (h, seekCur s 56)
  | BMPVersion.Five, CompressionType.RGB => return (h, seekCur s 84)
  | BMPVersion.Five, _ => do
      let (r, s) ← readLEx s 4 |>.mapError (fun _ => BMPError.IOError)
      let (g, s) ← readLEx s 4 |>.mapError (fun _ => BMPError.IOError)
      let (b, s) ← readLEx s 4 |>.mapError (fun _ => BMPError.IOError)
      let (a, s) ← readLEx s 4 |>.mapError (fun _ => BMPError.IOError)
      let h ← h.set_masks r g b a
      return (h, seekCur s 68)

/-- `BMPHeader::from_buffer`: magic bytes, 8 skipped bytes, the 16-bit read
of the pixel-array offset field, the DIB header size, and the per-version
dispatch. -/
def BMPHeader.from_buffer (s : Stream) : Except BMPError (BMPHeader × Stream) :=
  let r := readRaw s 2
  if r.1 = [66, 77] then
    (do
      let s := seekCur r.2 8
      let (pixel_offset, s) ← readLEx s 2 |>.mapError (fun _ => BMPError.IOError)
      let (dib, s) ← readLEx s 4 |>.mapError (fun _ => BMPError.IOError)
      let version ← BMPVersion.from_dib_header_size dib
      match version with
      | BMPVersion.Two => BMPHeader.from_v2_buffer s pixel_offset
      | _ => BMPHeader.from_v3_buffer s version pixel_offset)
  else
    Except.error (BMPError.WrongMagicNumbers (r.1.getD 0 0) (r.1.getD 1 0))

/-! ### src/bmp_pixels.rs: palette, pixel variants, next_pixel -/

structure PalletePixel where
  red : Nat
  green : Nat
  blue : Nat
deriving DecidableEq

structure Pixel where
  red : Nat
  green : Nat
  blue : Nat
  alpha : Nat
deriving DecidableEq

/-- `Pixel::from_pallete_pixel`: each 8-bit component upscaled to 32 bits,
alpha forced to all ones.  Option-valued only because `upscale` is; with the
width 8 the upscale always succeeds. -/
def Pixel.from_pallete_pixel (px : PalletePixel) : Option Pixel :=
  match upscale px.red 8, upscale px.green 8, upscale px.blue 8 with
  | some r, some g, some b => some ⟨r, g, b, 2 ^ 32 - 1⟩
  | _, _, _ => none

/-- `Pixel::from_bitfields`: unpack a packed pixel value through the four
channel masks.  `none` models a panic inside `mask`. -/
def Pixel.from_bitfields (px red green blue alpha : Nat) : Option Pixel :=
  match mask_or_zeros px red, mask_or_zeros px green,
        mask_or_zeros px blue, mask_or_ones px alpha with
  | some r, some g, some b, some a => some ⟨r, g, b, a⟩
  | _, _, _, _ => none

/-- `enum Pixels` without the borrowed source (threaded separately). -/
inductive Pixels where
  | OneBPP (pallete : List PalletePixel) (reader : BitReader)
  | TwoBPP (pallete : List PalletePixel) (reader : BitReader)
  | FourBPP (pallete : List PalletePixel) (reader : BitReader)
  | EightBPP (pallete : List PalletePixel)
  | SixteenBPP (red_mask green_mask blue_mask alpha_mask : Nat)
  | TwentyFourBPP
  | ThirtyTwoBPP (red_mask green_mask blue_mask alpha_mask : Nat)
deriving DecidableEq

/-- `Pixels::from_header`: select the per-depth decoding strategy (for 16 bpp
the header masks are truncated to u16 by the `as u16` casts). -/
def Pixels.from_header (header : BMPHeader) (pallete : List PalletePixel) :
    Except BMPError Pixels :=
  if header.bpp = 1 then Except.ok (Pixels.OneBPP pallete (BitReader.new 1))
  else if header.bpp = 2 then Except.ok (Pixels.TwoBPP pallete (BitReader.new 2))
  else if header.bpp = 4 then Except.ok (Pixels.FourBPP pallete (BitReader.new 4))
  else if header.bpp = 8 then Except.ok (Pixels.EightBPP pallete)
  else if header.bpp = 16 then Except.ok (Pixels.SixteenBPP
    (header.red_mask % 2 ^ 16) (header.green_mask % 2 ^ 16)
    (header.blue_mask % 2 ^ 16) (header.alpha_mask % 2 ^ 16))
  else if header.bpp = 24 then Except.ok Pixels.TwentyFourBPP
  else if header.bpp = 32 then Except.ok (Pixels.ThirtyTwoBPP
    header.red_mask header.green_mask header.blue_mask header.alpha_mask)
  else Except.error (BMPError.UnsupportedBitsPerPixel header.bpp)

/-- Bytes per palette entry: 3 for V2, 4 (with a padding byte) otherwise. -/
def paletteEntrySize : BMPVersion → Nat
  | BMPVersion.Two => 3
  | _ => 4

/-- The palette-reading loop of `Pixels::new`: each entry is read with a
plain (zero-filling) `read` of `k` bytes stored on disk as B, G, R. -/
def readPalette (k : Nat) : Nat → Stream → List PalletePixel × Stream
  | 0, s => ([], s)
  | n + 1, s =>
    let r := readRaw s k
    let rest := readPalette k n r.2
    (⟨r.1.getD 2 0, r.1.getD 1 0, r.1.getD 0 0⟩ :: rest.1, rest.2)

/-- `Pixels::new`: parse the header, read the palette, check the declared
pixel-array offset against the position actually reached, seek to that
offset, and build the per-format variant. -/
def Pixels.new (s : Stream) : Except BMPError (Pixels × Nat × Int × Stream) :=
  match BMPHeader.from_buffer s with
  | Except.error e => Except.error e
  | Except.ok (header, s1) =>
    if (readPalette (paletteEntrySize header.version) header.n_colors s1).2.pos >
        header.pixel_offset then
      Except.error (BMPError.HeaderTooLarge
        (readPalette (paletteEntrySize header.version) header.n_colors s1).2.pos
        header.pixel_offset)
    else
      match Pixels.from_header header
          (readPalette (paletteEntrySize header.version) header.n_colors s1).1 with
      | Except.error e => Except.error e
      | Except.ok px => Except.ok (px, header.width, header.height,
          { (readPalette (paletteEntrySize header.version) header.n_colors s1).2 with
            pos := header.pixel_offset })

/-- `Pixels::seek_to_byte_boundary`: the indexed (sub-byte) variants delegate
to the BitReader; the byte-granular variants run the same advance directly on
the source.  `none` models the remainder-by-zero panic when `align = 0`. -/
def Pixels.seek_to_byte_boundary : Pixels → Stream → Nat → Option (Pixels × Stream)
  | Pixels.OneBPP pal br, s, align =>
      (br.seek_to_byte_boundary s align).map (fun r => (Pixels.OneBPP pal r.1, r.2))
  | Pixels.TwoBPP pal br, s, align =>
      (br.seek_to_byte_boundary s align).map (fun r => (Pixels.TwoBPP pal r.1, r.2))
  | Pixels.FourBPP pal br, s, align =>
      (br.seek_to_byte_boundary s align).map (fun r => (Pixels.FourBPP pal r.1, r.2))
  | p, s, align =>
      if align = 0 then none
      else if s.pos % align ≠ 0 then
        some (p, { s with pos := s.pos + (align - s.pos % align) })
      else some (p, s)

/-- Specification-side helper: the state a `Pixels` value reaches after a
boundary seek (any buffered partial byte of an indexed variant discarded). -/
def Pixels.clearBuffer : Pixels → Pixels
  | Pixels.OneBPP pal br => Pixels.OneBPP pal { br with byte := 0, n_bits_remaining := 0 }
  | Pixels.TwoBPP pal br => Pixels.TwoBPP pal { br with byte := 0, n_bits_remaining := 0 }
  | Pixels.FourBPP pal br => Pixels.FourBPP pal { br with byte := 0, n_bits_remaining := 0 }
  | p => p

/-- The shared indexed-colour tail of `next_pixel`:
`Pixel::from_pallete_pixel(&pallete[code])`.  The slice indexing has no
bounds check in the source; an out-of-range code is a Rust panic. -/
def indexedResult (pallete : List PalletePixel) (c : Nat) (px : Pixels) (s : Stream) :
    Except RunErr (Pixel × Pixels × Stream) :=
  match pallete.get? c with
  | none => Except.error RunErr.panicked
  | some pp =>
    match Pixel.from_pallete_pixel pp with
    | none => Except.error RunErr.panicked
    | some p => Except.ok (p, px, s)

/-- `Pixels::next_pixel`: decode one pixel in the format selected at
construction time. -/
def Pixels.next_pixel : Pixels → Stream → Except RunErr (Pixel × Pixels × Stream)
  | Pixels.OneBPP pallete reader, s =>
      indexedResult pallete (reader.read_bits s).1
        (Pixels.OneBPP pallete (reader.read_bits s).2.1) (reader.read_bits s).2.2
  | Pixels.TwoBPP pallete reader, s =>
      indexedResult pallete (reader.read_bits s).1
        (Pixels.TwoBPP pallete (reader.read_bits s).2.1) (reader.read_bits s).2.2
  | Pixels.FourBPP pallete reader, s =>
      indexedResult pallete (reader.read_bits s).1
        (Pixels.FourBPP pallete (reader.read_bits s).2.1) (reader.read_bits s).2.2
  | Pixels.EightBPP pallete, s =>
      match readLEx s 1 with
      | Except.error e => Except.error e
      | Except.ok (c, s1) => indexedResult pallete c (Pixels.EightBPP pallete) s1
  | Pixels.SixteenBPP r g b a, s =>
      match readLEx s 2 with
      | Except.error e => Except.error e
      | Except.ok (v, s1) =>
        match Pixel.from_bitfields v r g b a with
        | none => Except.error RunErr.panicked
        | some p => Except.ok (p, Pixels.SixteenBPP r g b a, s1)
  | Pixels.TwentyFourBPP, s =>
      let r := readRaw s 3
      match Pixel.from_pallete_pixel ⟨r.1.getD 0 0, r.1.getD 1 0, r.1.getD 2 0⟩ with
      | none => Except.error RunErr.panicked
      | some p => Except.ok (p, Pixels.TwentyFourBPP, r.2)
  | Pixels.ThirtyTwoBPP r g b a, s =>
      match readLEx s 4 with
      | Except.error e => Except.error e
      | Except.ok (v, s1) =>
        match Pixel.from_bitfields v r g b a with
        | none => Except.error RunErr.panicked
        | some p => Except.ok (p, Pixels.ThirtyTwoBPP r g b a, s1)

/-! ### src/lib.rs: the public Reader -/

/-- `struct BMPReader` without the borrowed source. -/
structure BMPReader where
  pixels : Pixels
  stream : Stream
  bottom_up : Bool
  width : Nat
  height : Nat
  x : Nat
  y : Nat
deriving DecidableEq

/-- `BMPReader::new`. -/
def BMPReader.new (s : Stream) : Except BMPError BMPReader :=
  match Pixels.new s with
  | Except.error e => Except.error e
  | Except.ok (px, w, h, s1) =>
    Except.ok { pixels := px, stream := s1, bottom_up := decide (0 < h),
                width := w, height := h.natAbs, x := 0, y := 0 }

/-- `BMPReader::get_y`. -/
def BMPReader.get_y (st : BMPReader) : Nat :=
  if st.bottom_up then st.y else st.height - st.y

/-- One step of the `Iterator` implementation. -/
inductive NextResult where
  | finished
  | aborted
  | item (x y : Nat) (p : Option Pixel) (st : BMPReader)
deriving DecidableEq

/-- The tail of `BMPReader::next` shared by both branches:
`Some((self.x, self.get_y(), self.pixels.next_pixel()))`.  An `io::Error`
from `next_pixel` is delivered as the item payload (`none`); a panic aborts
the iteration. -/
def emitPixel (st : BMPReader) : NextResult :=
  match Pixels.next_pixel st.pixels st.stream with
  | Except.ok (p, px, s) =>
      NextResult.item st.x st.get_y (some p) { st with pixels := px, stream := s }
  | Except.error RunErr.ioErr => NextResult.item st.x st.get_y none st
  | Except.error RunErr.panicked => NextResult.aborted

/-- `BMPReader::next`: the row/column cursor state machine.  The seek at a
row boundary uses alignment 4 and, in this model, cannot return an
`io::Error` (so the error-item branch of the source at that point does not
arise); `none` from the seek would be the `align = 0` panic, which the fixed
argument 4 excludes. -/
def BMPReader.next (st : BMPReader) : NextResult :=
  if st.width ≤ st.x then
    if st.height ≤ st.y then NextResult.finished
    else
      match Pixels.seek_to_byte_boundary st.pixels st.stream 4 with
      | none => NextResult.aborted
      | some (px, s) =>
          emitPixel { st with x := 0, y := st.y + 1, pixels := px, stream := s }
  else
    emitPixel { st with x := st.x + 1 }

/-- Drive the iterator to exhaustion (fuel-bounded), collecting the emitted
`(x, y, pixel-or-error)` items. -/
def runReader : Nat → BMPReader → List (Nat × Nat × Option Pixel)
  | 0, _ => []
  | fuel + 1, st =>
    match BMPReader.next st with
    | NextResult.finished => []
    | NextResult.aborted => []
    | NextResult.item x y p st1 => (x, y, p) :: runReader fuel st1

/-- Collect the values of `n` successive `read_bits` calls. -/
def readsN : Nat → BitReader → Stream → List Nat
  | 0, _, _ => []
  | n + 1, br, s =>
    (br.read_bits s).1 :: readsN n (br.read_bits s).2.1 (br.read_bits s).2.2

/-- Is an `Except` value a success? -/
def isOk (e : Except ε α) : Bool :=
  match e with
  | Except.ok _ => true
  | Except.error _ => false

/-- Does a `Pixels::new` outcome carry the header-too-large error? -/
def errIsHeaderTooLarge (e : Except BMPError (Pixels × Nat × Int × Stream)) : Bool :=
  match e with
  | Except.error (BMPError.HeaderTooLarge _ _) => true
  | _ => false

/-- The stream position delivered by a successful `Pixels::new`. -/
def okStreamPos (e : Except BMPError (Pixels × Nat × Int × Stream)) : Option Nat :=
  match e with
  | Except.ok (_, _, _, s) => some s.pos
  | Except.error _ => none

/-- A synthetic 2 by 2, 24-bit, top-down (height -2), uncompressed BMP laid
out exactly where `from_buffer` reads its fields: magic, 8 skipped bytes, the
16-bit pixel offset (52), a 40-byte V3 DIB header with width 2, height -2,
1 plane, 24 bpp, compression 0, then two 6-byte pixel rows each padded to 8
bytes, pixel triples (1,2,3), (4,5,6), (7,8,9), (10,11,12), pad bytes 170. -/
def bmp2x2 : List Nat :=
  [66, 77, 0, 0, 0, 0, 0, 0, 0, 0, 52, 0,
   40, 0, 0, 0, 2, 0, 0, 0, 254, 255, 255, 255, 1, 0, 24, 0,
   0, 0, 0, 0, 0, 0, 0, 0, 0, 0, 0, 0, 0, 0, 0, 0, 0, 0, 0, 0, 0, 0, 0, 0,
   1, 2, 3, 4, 5, 6, 170, 170, 7, 8, 9, 10, 11, 12, 170, 170]

/-- A sample 16-bpp header used to exercise `set_masks`. -/
def h16 : BMPHeader :=
  ⟨BMPVersion.Three, 2, 2, 16, 0,
   BMP_BITFIELD16_RED, BMP_BITFIELD16_GREEN, BMP_BITFIELD16_BLUE, 0, 54⟩

/-! ## Helper lemmas -/

instance instDecEqExcept {ε α : Type} [DecidableEq ε] [DecidableEq α] :
    DecidableEq (Except ε α) := fun x y =>
  match x, y with
  | Except.ok a, Except.ok b =>
    if h : a = b then isTrue (by rw [h])
    else isFalse (fun hc => h (by injection hc))
  | Except.error a, Except.error b =>
    if h : a = b then isTrue (by rw [h])
    else isFalse (fun hc => h (by injection hc))
  | Except.ok _, Except.error _ => isFalse (fun hc => Except.noConfusion hc)
  | Except.error _, Except.ok _ => isFalse (fun hc => Except.noConfusion hc)

theorem upscale_255 (v : Nat) : upscale v 255 = none := rfl

theorem trailingZeros_of_odd (k : Nat) (hk : k % 2 = 1) : trailingZeros k = 0 := by
  unfold trailingZeros
  rw [List.range_succ_eq_map]
  rw [show List.find? (fun i => decide ((k >>> i) % 2 = 1))
        (0 :: List.map Nat.succ (List.range 31)) = some 0 from
      List.find?_cons_of_pos _ (by simp [hk])]
  rfl

theorem from_pallete_pixel_isSome (pp : PalletePixel) :
    (Pixel.from_pallete_pixel pp).isSome = true := rfl

theorem mod_add_deficit (a p : Nat) (ha : 1 ≤ a) :
    (p + (a - p % a)) % a = 0 := by
  have hd := Nat.mod_add_div p a
  have hlt : p % a < a := Nat.mod_lt p (by omega)
  have h1 : p + (a - p % a) = a * (p / a) + a := by omega
  rw [h1, Nat.mul_add_mod, Nat.mod_self]

theorem newpos_aligned (align p : Nat) (ha : 1 ≤ align) :
    (p + (align - p % align) % align) % align = 0 := by
  by_cases hm : p % align = 0
  · rw [hm, Nat.sub_zero, Nat.mod_self, Nat.add_zero, hm]
  · have hlt : p % align < align := Nat.mod_lt p (by omega)
    have h2 : (align - p % align) % align = align - p % align :=
      Nat.mod_eq_of_lt (by omega)
    rw [h2]
    exact mod_add_deficit align p ha

theorem seekBR_eq (align : Nat) (br : BitReader) (s : Stream) (ha : 1 ≤ align) :
    BitReader.seek_to_byte_boundary br s align =
      some (⟨0, 0, br.n_bits_per_chunk⟩,
            ⟨s.data, s.pos + (align - s.pos % align) % align⟩) := by
  unfold BitReader.seek_to_byte_boundary
  rw [if_neg (by omega : ¬ align = 0)]
  by_cases hm : s.pos % align = 0
  · rw [if_neg (by omega : ¬ s.pos % align ≠ 0)]
    rw [hm, Nat.sub_zero, Nat.mod_self, Nat.add_zero]
  · rw [if_pos hm]
    have hlt : s.pos % align < align := Nat.mod_lt s.pos (by omega)
    rw [Nat.mod_eq_of_lt (by omega : align - s.pos % align < align)]

theorem byte_branch_eq {α : Type} (align : Nat) (s : Stream) (ha : 1 ≤ align) (p : α) :
    (if align = 0 then none
     else if s.pos % align ≠ 0 then
       some (p, { s with pos := s.pos + (align - s.pos % align) })
     else some (p, s)) =
      some (p, (⟨s.data, s.pos + (align - s.pos % align) % align⟩ : Stream)) := by
  rw [if_neg (by omega : ¬ align = 0)]
  by_cases hm : s.pos % align = 0
  · rw [if_neg (by omega : ¬ s.pos % align ≠ 0)]
    rw [hm, Nat.sub_zero, Nat.mod_self, Nat.add_zero]
  · rw [if_pos hm]
    have hlt : s.pos % align < align := Nat.mod_lt s.pos (by omega)
    rw [Nat.mod_eq_of_lt (by omega : align - s.pos % align < align)]

theorem seekBR_idem (align : Nat) (br : BitReader) (s : Stream) (ha : 1 ≤ align)
    (hpos : s.pos % align = 0) :
    BitReader.seek_to_byte_boundary br s align =
      some ({ br with byte := 0, n_bits_remaining := 0 }, s) := by
  unfold BitReader.seek_to_byte_boundary
  rw [if_neg (by omega : ¬ align = 0), if_neg (by omega : ¬ s.pos % align ≠ 0)]

theorem indexedResult_panicked_iff (pal : List PalletePixel) (c : Nat)
    (px : Pixels) (s : Stream) :
    (indexedResult pal c px s = Except.error RunErr.panicked ↔ pal.length ≤ c) := by
  rcases hg : pal.get? c with _ | pp
  · have hle := List.get?_eq_none.mp hg
    simp only [indexedResult, hg]
    exact iff_of_true trivial hle
  · have hlt : c < pal.length := by
      rcases List.get?_eq_some.mp hg with ⟨h1, _⟩
      exact h1
    have hs := from_pallete_pixel_isSome pp
    rcases h2 : Pixel.from_pallete_pixel pp with _ | p
    · rw [h2] at hs
      simp at hs
    · simp only [indexedResult, hg, h2]
      exact iff_of_false (fun hc => Except.noConfusion hc) (by omega)

theorem indexedResult_isOk_eq (pal : List PalletePixel) (c : Nat)
    (px : Pixels) (s : Stream) :
    isOk (indexedResult pal c px s) = decide (c < pal.length) := by
  rcases hg : pal.get? c with _ | pp
  · have hle := List.get?_eq_none.mp hg
    have hnl : ¬ c < pal.length := by omega
    simp only [indexedResult, hg, isOk]
    rw [decide_eq_false hnl]
  · have hlt : c < pal.length := by
      rcases List.get?_eq_some.mp hg with ⟨h1, _⟩
      exact h1
    have hs := from_pallete_pixel_isSome pp
    rcases h2 : Pixel.from_pallete_pixel pp with _ | p
    · rw [h2] at hs
      simp at hs
    · simp only [indexedResult, hg, h2, isOk]
      rw [decide_eq_true hlt]

theorem leRead_one (s : Stream) : leRead s 1 = s.data.getD s.pos 0 := rfl

theorem from_header_error_eq (header : BMPHeader) (pal : List PalletePixel)
    (e : BMPError) (h : Pixels.from_header header pal = Except.error e) :
    e = BMPError.UnsupportedBitsPerPixel header.bpp := by
  unfold Pixels.from_header at h
  split_ifs at h
  all_goals
    first
      | exact Except.noConfusion h
      | (injection h with h1; exact h1.symm)

/-! ## Claim theorems -/

/-- Claim C1 (code_bug evidence): decoding the synthetic 2 by 2, 24-bit,
top-down BMP `bmp2x2` to exhaustion emits EIGHT items, at coordinates
(1,2), (2,2), (0,1), (1,1), (2,1), (0,0), (1,0), (2,0) in that order, not
the four pixels covering (0,0), (1,0), (0,1), (1,1) that the claim states:
the iterator of `BMPReader::next` increments `x` before emitting, so the
first pixel of each row is emitted at the previous coordinate slot, each row
yields width + 1 items, and for a top-down image `get_y` reports
`height - y` with `y` starting at 0, so the out-of-range coordinates x = 2
and y = 2 are produced while (1, 1) receives the byte triple (10, 11, 12)
that belongs at (1, 1) only by accident of the shifted read pattern. -/
theorem bmp2x2_decode_eval :
    (BMPReader.new ⟨bmp2x2, 0⟩).map
        (fun st => (runReader 20 st).map (fun t => (t.1, t.2.1))) =
      Except.ok [(1, 2), (2, 2), (0, 1), (1, 1), (2, 1), (0, 0), (1, 0), (2, 0)] := by
  rfl

/-- Claim C2 (code_bug evidence): `mask_is_contiguous` rejects the plainly
contiguous masks 0x0000FFFF and 0xFF000000 (the claim expects them
accepted), accepts only the zero mask, and consequently `set_masks` reports
`BitfieldsNotContiguous` both for contiguous masks and for the
overlapping-mask case the claim expects to fail with `BitfieldsOverlap`:
after the first shift past the trailing zeros the value is odd, so the
second `mask >> mask.trailing_zeros()` shifts by zero and the function falls
through to `return false` for every nonzero input (the `true;` after the
intermediate zero test is a statement with no effect). -/
theorem mask_contiguity_eval :
    mask_is_contiguous 0x0000FFFF = false ∧
    mask_is_contiguous 0xFF000000 = false ∧
    mask_is_contiguous 0x00000000 = true ∧
    mask_is_contiguous 0xFF00FF = false ∧
    BMPHeader.set_masks h16 0x0000FFFF 0xFF000000 0 0 =
      Except.error (BMPError.BitfieldsNotContiguous 0x0000FFFF 0xFF000000 0 0) ∧
    BMPHeader.set_masks h16 0x0000FF00 0x0000FF00 0 0 =
      Except.error (BMPError.BitfieldsNotContiguous 0x0000FF00 0x0000FF00 0 0) := by
  decide

/-- Claim C3 (code_bug evidence): the reconciled palette count is 2 to the
depth when the declared count is 0 (bpp 4, declared 0 gives 16) or exceeds
2 to the depth (bpp 8, declared 300 gives 256), as the claim states, but a
valid declared count is NOT kept: bpp 8 with declared 100 reconciles to 0
(the `else` arm of `BMPHeader::new` yields 0, not the declared count), so no
palette entry would be read for such a file.  `readPalette` does read exactly
the reconciled number of entries (16 entries, 64 bytes, here). -/
theorem palette_reconciliation_eval :
    (BMPHeader.new BMPVersion.Three 1 1 1 4 0 54).map (fun h => h.n_colors) =
      Except.ok 16 ∧
    (BMPHeader.new BMPVersion.Three 1 1 1 8 300 54).map (fun h => h.n_colors) =
      Except.ok 256 ∧
    (BMPHeader.new BMPVersion.Three 1 1 1 8 100 54).map (fun h => h.n_colors) =
      Except.ok 0 ∧
    (readPalette 4 16 ⟨List.replicate 100 9, 0⟩).1.length = 16 ∧
    (readPalette 4 16 ⟨List.replicate 100 9, 0⟩).2.pos = 64 := by
  decide

/-- Claim C4 (code_bug evidence): the masked-channel derivation `mask` NEVER
produces an upscaled value: for every pixel value and every mask it reaches
a Rust panic (modelled as `none`).  For a nonzero mask the replication width
computed by `!(mask >> tz).trailing_zeros() as u8` is 255 (the `!` negates
the trailing-zero count 0 of the already right-shifted, odd mask value, not
the mask itself), so `upscale` hits the overflowing shift `to << 32 % 255`,
whose amount 32 is the full u32 width: a panic in debug builds and a masked
(no-op) shift without any bit replication in release builds.  For the zero
mask the shift `mask >> mask.trailing_zeros()` itself has amount 32.  The
claim instead expects, for example, mask 0x1F on pixel 0x1F to yield the
channel value with all 32 bits set. -/
theorem mask_upscale_never (px m : Nat) : mask px m = none := by
  unfold mask
  by_cases h32 : 32 ≤ trailingZeros m
  · rw [if_pos h32]
  · rw [if_neg h32]
    rcases hf : (List.range 32).find? (fun i => decide ((m >>> i) % 2 = 1)) with _ | i
    · exact absurd (by unfold trailingZeros; rw [hf]; exact Nat.le_refl 32) h32
    · have htz : trailingZeros m = i := by
        unfold trailingZeros
        rw [hf]
        rfl
      have hodd : (m >>> i) % 2 = 1 := by
        have h1 := List.find?_some hf
        simp only [decide_eq_true_eq] at h1
        exact h1
      rw [htz, trailingZeros_of_odd _ hodd]
      have h255 : (2 ^ 32 - 1 - 0) % 256 = 255 := by norm_num
      rw [h255]
      exact upscale_255 _

/-- Claim C5 (code_bug evidence): a 24-bit pixel read consumes the 3 disk
bytes (1, 2, 3) and builds the pixel with red upscaled from the FIRST byte
(red = 0x01010101) and blue from the third (blue = 0x03030303), alpha all
ones; the claim (and the BMP disk format, which the palette-reading path of
the same file honours by storing red from the third byte, as the final
conjunct shows) expects the first byte to become the blue channel. -/
theorem pixel24_channel_order_eval :
    Pixels.next_pixel Pixels.TwentyFourBPP ⟨[1, 2, 3], 0⟩ =
      Except.ok (⟨16843009, 33686018, 50529027, 4294967295⟩,
                 Pixels.TwentyFourBPP, ⟨[1, 2, 3], 3⟩) ∧
    (readPalette 3 1 ⟨[1, 2, 3], 0⟩).1 = [⟨3, 2, 1⟩] := by
  constructor
  · rfl
  · rfl

/-- Claim C6: after the palette is read, `Pixels::new` fails with the
header-too-large error exactly when the position reached exceeds the
declared pixel-array offset (first conjunct, as a boolean equation), a
successful construction leaves the source exactly at the declared offset
(second conjunct), and unless that failure occurs the seek is forward-only:
the post-palette position is at most the declared offset (third conjunct).
No pixel is read during construction: `next_pixel` is not invoked anywhere
in `Pixels.new`. -/
theorem pixels_new_offset_spec (s : Stream) (header : BMPHeader) (s1 : Stream)
    (hfb : BMPHeader.from_buffer s = Except.ok (header, s1)) :
    errIsHeaderTooLarge (Pixels.new s) =
      decide (header.pixel_offset <
        (readPalette (paletteEntrySize header.version) header.n_colors s1).2.pos) ∧
    (okStreamPos (Pixels.new s) = none ∨
      okStreamPos (Pixels.new s) = some header.pixel_offset) ∧
    ((readPalette (paletteEntrySize header.version) header.n_colors s1).2.pos ≤
        header.pixel_offset ∨
      errIsHeaderTooLarge (Pixels.new s) = true) := by
  have hpn : Pixels.new s =
      (if (readPalette (paletteEntrySize header.version) header.n_colors s1).2.pos >
          header.pixel_offset then
        Except.error (BMPError.HeaderTooLarge
          (readPalette (paletteEntrySize header.version) header.n_colors s1).2.pos
          header.pixel_offset)
      else
        match Pixels.from_header header
            (readPalette (paletteEntrySize header.version) header.n_colors s1).1 with
        | Except.error e => Except.error e
        | Except.ok px => Except.ok (px, header.width, header.height,
            { (readPalette (paletteEntrySize header.version) header.n_colors s1).2 with
              pos := header.pixel_offset })) := by
    unfold Pixels.new
    rw [hfb]
  by_cases hgt : header.pixel_offset <
      (readPalette (paletteEntrySize header.version) header.n_colors s1).2.pos
  · rw [hpn, if_pos hgt]
    refine ⟨?_, Or.inl rfl, Or.inr rfl⟩
    rw [decide_eq_true hgt]
    rfl
  · rw [hpn, if_neg hgt]
    rcases hfh : Pixels.from_header header
        (readPalette (paletteEntrySize header.version) header.n_colors s1).1 with e | px
    · have he := from_header_error_eq _ _ _ hfh
      subst he
      refine ⟨?_, Or.inl rfl, Or.inl (by omega)⟩
      rw [decide_eq_false hgt]
      rfl
    · refine ⟨?_, Or.inr rfl, Or.inl (by omega)⟩
      rw [decide_eq_false hgt]
      rfl

/-- Claim C6 witness: on the well-formed `bmp2x2` input (post-palette
position 52, declared offset 52) construction does not fail with the
header-too-large error, succeeds leaving the source at position 52, and the
seek was forward-only. -/
theorem pixels_new_offset_spec_witness :
    errIsHeaderTooLarge (Pixels.new ⟨bmp2x2, 0⟩) = decide ((52 : Nat) < 52) ∧
    (okStreamPos (Pixels.new ⟨bmp2x2, 0⟩) = none ∨
      okStreamPos (Pixels.new ⟨bmp2x2, 0⟩) = some 52) ∧
    ((52 : Nat) ≤ 52 ∨ errIsHeaderTooLarge (Pixels.new ⟨bmp2x2, 0⟩) = true) :=
  pixels_new_offset_spec ⟨bmp2x2, 0⟩
    ⟨BMPVersion.Three, 2, -2, 24, 0, 0, 0, 0, 0, 52⟩ ⟨bmp2x2, 52⟩ (by decide)

/-- Claim C7: for every alignment of at least 1, both boundary-seek
implementations succeed and move the position to
`pos + (align - pos % align) % align`, which is `pos` itself when `pos` is a
multiple of `align` (the deficit term is then `align % align = 0`) and
`pos + (align - pos % align)` otherwise; the new position is a multiple of
`align` (second conjunct), so an immediate second call is a no-op on both
implementations (third and fifth conjuncts): the operation is idempotent.
The BitReader version unconditionally discards the buffered partial byte
(the `byte` and `n_bits_remaining` fields are reset to 0), and the indexed
`Pixels` variants delegate to it, captured by `Pixels.clearBuffer` in the
fourth conjunct. -/
theorem seek_boundary_spec (align : Nat) (br : BitReader) (s : Stream)
    (px : Pixels) (ha : 1 ≤ align) :
    BitReader.seek_to_byte_boundary br s align =
      some (⟨0, 0, br.n_bits_per_chunk⟩,
            ⟨s.data, s.pos + (align - s.pos % align) % align⟩) ∧
    (s.pos + (align - s.pos % align) % align) % align = 0 ∧
    BitReader.seek_to_byte_boundary ⟨0, 0, br.n_bits_per_chunk⟩
        ⟨s.data, s.pos + (align - s.pos % align) % align⟩ align =
      some (⟨0, 0, br.n_bits_per_chunk⟩,
            ⟨s.data, s.pos + (align - s.pos % align) % align⟩) ∧
    Pixels.seek_to_byte_boundary px s align =
      some (px.clearBuffer, ⟨s.data, s.pos + (align - s.pos % align) % align⟩) ∧
    Pixels.seek_to_byte_boundary px.clearBuffer
        ⟨s.data, s.pos + (align - s.pos % align) % align⟩ align =
      some (px.clearBuffer, ⟨s.data, s.pos + (align - s.pos % align) % align⟩) := by
  have hal := newpos_aligned align s.pos ha
  refine ⟨seekBR_eq align br s ha, hal,
          seekBR_idem align _ _ ha hal, ?_, ?_⟩
  · cases px <;>
      simp only [Pixels.seek_to_byte_boundary, Pixels.clearBuffer] <;>
      first
        | (rw [seekBR_eq _ _ _ ha]; rfl)
        | exact byte_branch_eq align s ha _
  · cases px <;>
      simp only [Pixels.seek_to_byte_boundary, Pixels.clearBuffer] <;>
      first
        | (rw [seekBR_idem _ _ _ ha hal]; rfl)
        | rw [if_neg (by omega : ¬ align = 0), if_neg (not_not_intro hal)]

/-- Claim C7 witness: at alignment 4 from position 6 the BitReader seek
clears the buffer and advances to position 8, the new position is 4-aligned,
a repeated call from position 8 is a no-op, and the byte-granular `Pixels`
seek does the same. -/
theorem seek_boundary_spec_witness :
    BitReader.seek_to_byte_boundary (BitReader.new 2) ⟨List.replicate 12 0, 6⟩ 4 =
      some (⟨0, 0, 2⟩, ⟨List.replicate 12 0, 8⟩) ∧
    (8 : Nat) % 4 = 0 ∧
    BitReader.seek_to_byte_boundary ⟨0, 0, 2⟩ ⟨List.replicate 12 0, 8⟩ 4 =
      some (⟨0, 0, 2⟩, ⟨List.replicate 12 0, 8⟩) ∧
    Pixels.seek_to_byte_boundary Pixels.TwentyFourBPP ⟨List.replicate 12 0, 6⟩ 4 =
      some (Pixels.TwentyFourBPP, ⟨List.replicate 12 0, 8⟩) ∧
    Pixels.seek_to_byte_boundary Pixels.TwentyFourBPP ⟨List.replicate 12 0, 8⟩ 4 =
      some (Pixels.TwentyFourBPP, ⟨List.replicate 12 0, 8⟩) :=
  seek_boundary_spec 4 (BitReader.new 2) ⟨List.replicate 12 0, 6⟩
    Pixels.TwentyFourBPP (by decide)

/-- Claim C8 counterexample: the claim states that, for every repeated byte
pattern, each of the 8/w chunk reads returns the LOW w bits of the pattern
byte; with w = 4 on the repeated byte 0x01 the second read returns the HIGH
nibble 0, not the low nibble 1, refuting the claim at this input. -/
theorem read_bits_lowbits_cex :
    readsN 2 (BitReader.new 4) ⟨List.replicate 8 1, 0⟩ ≠
      List.replicate 2 ((1 : Nat) % 2 ^ 4) := by
  decide

/-- Claim C8 (amended): for every byte value and every chunk width
w in {1, 2, 4, 8}, reading 8/w chunks from a source of that repeated byte
yields the successive w-bit sub-groups of the byte in strict low-to-high
bit order (the i-th read returns `(b >>> (w * i)) % 2 ^ w`); in particular,
when all sub-groups coincide, as for an all-bits-set byte, every read
returns the low w bits `2 ^ w - 1`. -/
theorem read_bits_groups :
    (∀ b, b < 256 → readsN 8 (BitReader.new 1) ⟨List.replicate 8 b, 0⟩ =
        (List.range 8).map (fun i => (b >>> (1 * i)) % 2 ^ 1)) ∧
    (∀ b, b < 256 → readsN 4 (BitReader.new 2) ⟨List.replicate 8 b, 0⟩ =
        (List.range 4).map (fun i => (b >>> (2 * i)) % 2 ^ 2)) ∧
    (∀ b, b < 256 → readsN 2 (BitReader.new 4) ⟨List.replicate 8 b, 0⟩ =
        (List.range 2).map (fun i => (b >>> (4 * i)) % 2 ^ 4)) ∧
    (∀ b, b < 256 → readsN 1 (BitReader.new 8) ⟨List.replicate 8 b, 0⟩ =
        (List.range 1).map (fun i => (b >>> (8 * i)) % 2 ^ 8)) := by
  set_option maxRecDepth 4000 in decide

/-- Claim C8 witness: on the all-bits-set repeated byte with w = 4, both
reads return the low 4 bits, 15. -/
theorem read_bits_groups_witness :
    readsN 2 (BitReader.new 4) ⟨List.replicate 8 255, 0⟩ = [15, 15] :=
  read_bits_groups.2.2.1 255 (by decide)

/-- Claim C9: in each indexed-colour format the decoded pixel code is used
as a slice index into the palette with no bounds check: `next_pixel` panics
(`RunErr.panicked`, not an error return) exactly when the code reaches the
palette length, and succeeds exactly when the code is strictly below it; in
particular an empty palette always panics.  For the 8-bpp format the
position hypothesis makes the one-byte read succeed so that the code is the
byte at the current position. -/
theorem indexed_lookup_bounds (pal : List PalletePixel) (br : BitReader)
    (s : Stream) (h8 : s.pos < s.data.length) :
    (Pixels.next_pixel (Pixels.OneBPP pal br) s = Except.error RunErr.panicked ↔
      pal.length ≤ (br.read_bits s).1) ∧
    (isOk (Pixels.next_pixel (Pixels.OneBPP pal br) s) =
      decide ((br.read_bits s).1 < pal.length)) ∧
    (Pixels.next_pixel (Pixels.TwoBPP pal br) s = Except.error RunErr.panicked ↔
      pal.length ≤ (br.read_bits s).1) ∧
    (isOk (Pixels.next_pixel (Pixels.TwoBPP pal br) s) =
      decide ((br.read_bits s).1 < pal.length)) ∧
    (Pixels.next_pixel (Pixels.FourBPP pal br) s = Except.error RunErr.panicked ↔
      pal.length ≤ (br.read_bits s).1) ∧
    (isOk (Pixels.next_pixel (Pixels.FourBPP pal br) s) =
      decide ((br.read_bits s).1 < pal.length)) ∧
    (Pixels.next_pixel (Pixels.EightBPP pal) s = Except.error RunErr.panicked ↔
      pal.length ≤ s.data.getD s.pos 0) ∧
    (isOk (Pixels.next_pixel (Pixels.EightBPP pal) s) =
      decide (s.data.getD s.pos 0 < pal.length)) := by
  have hr : readLEx s 1 = Except.ok (leRead s 1, { s with pos := s.pos + 1 }) := by
    unfold readLEx
    rw [if_pos (by omega)]
  refine ⟨indexedResult_panicked_iff pal _ _ _, indexedResult_isOk_eq pal _ _ _,
          indexedResult_panicked_iff pal _ _ _, indexedResult_isOk_eq pal _ _ _,
          indexedResult_panicked_iff pal _ _ _, indexedResult_isOk_eq pal _ _ _,
          ?_, ?_⟩
  · simp only [Pixels.next_pixel, hr, leRead_one]
    exact indexedResult_panicked_iff pal _ _ _
  · simp only [Pixels.next_pixel, hr, leRead_one]
    exact indexedResult_isOk_eq pal _ _ _

/-- Claim C9 witness: with the empty palette, a 1-bpp pixel read from the
byte 5 (decoded code 1) panics on the palette lookup. -/
theorem indexed_lookup_bounds_witness :
    Pixels.next_pixel (Pixels.OneBPP [] (BitReader.new 1)) ⟨[5], 0⟩ =
      Except.error RunErr.panicked :=
  (indexed_lookup_bounds [] (BitReader.new 1) ⟨[5], 0⟩ (by decide)).1.mpr (by decide)

/-- Claim C10: both boundary-seek implementations compute
`position % align` with no guard on `align`: the operation succeeds for
every alignment of at least 1 and hits the Rust remainder-by-zero panic
(modelled as `none`) exactly when `align = 0`.  The only internal caller,
`BMPReader.next`, passes the constant alignment 4 (visible in its
definition), so this panic is unreachable through the public iterator. -/
theorem seek_align_zero_total (br : BitReader) (s : Stream) (px : Pixels)
    (align : Nat) :
    (BitReader.seek_to_byte_boundary br s align = none ↔ align = 0) ∧
    (Pixels.seek_to_byte_boundary px s align = none ↔ align = 0) := by
  constructor
  · unfold BitReader.seek_to_byte_boundary
    by_cases h : align = 0 <;> simp [h]
  · by_cases h : align = 0
    · subst h
      cases px <;>
        simp [Pixels.seek_to_byte_boundary, BitReader.seek_to_byte_boundary]
    · cases px <;>
        simp [Pixels.seek_to_byte_boundary, BitReader.seek_to_byte_boundary, h] <;>
        split_ifs <;> simp

end BMP
